import Mathlib

/-!
Shallow embedding of the energy-trading chaincode
(`src/chaincode-go/energyTrading.go`).

Modelling decisions:
* Go `float64` fields are modelled as `ℚ`.  Every numeric operation the code
  performs (addition, comparison, clamping) is exact on the values the spec
  discusses, and `ℚ` is computable and decidable.
* The Fabric stub is modelled as a `Ledger`: a flat string-keyed map of
  stored values, plus per-key host I/O failure flags for `GetState` and
  `PutState`.  `GetState` on a failing key returns no bytes and an error,
  matching the Fabric convention of a nil byte slice alongside the error.
* Stored bytes are modelled by `StoreVal`: a well-formed JSON encoding of one
  of the three record types, or bytes that do not parse (`badBytes`).
  Go's `json.Unmarshal` ignores unknown object fields and leaves absent
  fields at their zero value, so decoding a value of one record type into
  another record type succeeds and yields the zero-valued record; only
  `badBytes` makes `json.Unmarshal` fail.  `json.Marshal` cannot fail on
  these struct types, so encoding is total.
* Go's multi-value returns `(value, err)` are kept as pairs (the code
  sometimes uses the value even when `err != nil`, so an `Except` would not
  be faithful).  Errors are classified by `ErrKind`, one constructor per
  `fmt.Errorf` site plus decode and store failures.
* State is threaded explicitly: every chaincode method takes the ledger and
  returns the (possibly updated) ledger next to its Go result.
-/

/-- EnergyAsset record, from the Go struct `EnergyAsset`. -/
structure EnergyAsset where
  tokenID : String
  buyerAddress : String
  sellerAddress : String
  energyAmount : ℚ
  transactionPrice : ℚ
  timestamp : String
  buyerDeposit : ℚ
  sellerDeposit : ℚ
  transactionState : String
  buyerSignature : String
  sellerSignature : String
deriving DecidableEq

/-- TokenAccount record, from the Go struct `TokenAccount`. -/
structure TokenAccount where
  accountID : String
  balance : ℚ
deriving DecidableEq

/-- Reputation record, from the Go struct `Reputation`. -/
structure Reputation where
  participantAddress : String
  score : ℚ
deriving DecidableEq

/-- Minimum acceptable reputation score, from the Go constant
`ReputationPenaltyThreshold = 40.0`. -/
def ReputationPenaltyThreshold : ℚ := 40

/-- A value stored under a key: the JSON encoding of one of the three record
types, or bytes that fail to parse as JSON. -/
inductive StoreVal where
  | assetV : EnergyAsset → StoreVal
  | repV : Reputation → StoreVal
  | acctV : TokenAccount → StoreVal
  | badBytes : StoreVal
deriving DecidableEq

/-- Error kinds, one per `fmt.Errorf` site in the Go code plus the decode
(`json.Unmarshal`) and store (`GetState`/`PutState` host I/O) failures. -/
inductive ErrKind where
  | notFound : String → ErrKind
  | alreadyExists : String → ErrKind
  | buyerRepTooLow : String → ErrKind
  | sellerRepTooLow : String → ErrKind
  | decodeError : ErrKind
  | storeError : ErrKind
deriving DecidableEq

/-- The world the Fabric stub exposes: stored data plus per-key host I/O
failure flags for reads and writes. -/
structure Ledger where
  data : String → Option StoreVal
  getFail : String → Bool
  putFail : String → Bool

/-- Stub `GetState`: on host I/O failure returns no bytes together with the
error flag, otherwise the stored bytes (if any) and no error. -/
def getState (L : Ledger) (key : String) : Option StoreVal × Bool :=
  if L.getFail key then (none, true) else (L.data key, false)

/-- Stub `PutState`: on host I/O failure returns an error and writes nothing,
otherwise rebinds the key and succeeds. -/
def putState (L : Ledger) (key : String) (v : StoreVal) : Option ErrKind × Ledger :=
  if L.putFail key then (some .storeError, L)
  else (none, { L with data := fun k => if k = key then some v else L.data k })

/-- Zero value of the Go `EnergyAsset` struct. -/
def zeroAsset : EnergyAsset := ⟨"", "", "", 0, 0, "", 0, 0, "", "", ""⟩

/-- Zero value of the Go `Reputation` struct. -/
def zeroReputation : Reputation := ⟨"", 0⟩

/-- Go `json.Unmarshal` of stored bytes into an `EnergyAsset` target:
well-formed asset bytes decode to the asset; bytes of another record type
parse as JSON whose fields are all unknown to `EnergyAsset`, yielding the
zero-valued struct; malformed bytes fail, leaving the target zero. -/
def unmarshalAsset : StoreVal → EnergyAsset × Option ErrKind
  | .assetV a => (a, none)
  | .repV _ => (zeroAsset, none)
  | .acctV _ => (zeroAsset, none)
  | .badBytes => (zeroAsset, some .decodeError)

/-- Go `json.Unmarshal` of stored bytes into a `Reputation` target, with the
same field-matching semantics as `unmarshalAsset`. -/
def unmarshalRep : StoreVal → Reputation × Option ErrKind
  | .assetV _ => (zeroReputation, none)
  | .repV r => (r, none)
  | .acctV _ => (zeroReputation, none)
  | .badBytes => (zeroReputation, some .decodeError)

/-- `ReadEnergyAsset`: `GetState`, then `if err != nil || assetJSON == nil`
return the "asset %s does not exist" error with a nil pointer; otherwise
unmarshal, returning the (possibly zero) asset next to the unmarshal error. -/
def ReadEnergyAsset (L : Ledger) (tokenID : String) :
    (Option EnergyAsset × Option ErrKind) × Ledger :=
  match getState L tokenID with
  | (_, true) => ((none, some (.notFound tokenID)), L)
  | (none, false) => ((none, some (.notFound tokenID)), L)
  | (some v, false) =>
    let r := unmarshalAsset v
    ((some r.1, r.2), L)

/-- `EnergyAssetExists`: `GetState`, then return `(assetJSON != nil, err)`. -/
def EnergyAssetExists (L : Ledger) (tokenID : String) : (Bool × Bool) × Ledger :=
  let g := getState L tokenID
  ((g.1.isSome, g.2), L)

/-- `ReadReputationScore`: `GetState`, then `if repJSON == nil || err != nil`
return the synthesized default `{participantAddress, 50}` with no error;
otherwise unmarshal, returning the record next to the unmarshal error. -/
def ReadReputationScore (L : Ledger) (participantAddress : String) :
    (Reputation × Option ErrKind) × Ledger :=
  match getState L participantAddress with
  | (none, _) => ((⟨participantAddress, 50⟩, none), L)
  | (some _, true) => ((⟨participantAddress, 50⟩, none), L)
  | (some v, false) => (unmarshalRep v, L)

/-- `CheckReputationPenalty`: read the reputation and return
`(reputation.Score < ReputationPenaltyThreshold, err)`. -/
def CheckReputationPenalty (L : Ledger) (participantAddress : String) :
    (Bool × Option ErrKind) × Ledger :=
  let r := ReadReputationScore L participantAddress
  ((decide (r.1.1.score < ReputationPenaltyThreshold), r.1.2), r.2)

/-- `UpdateReputationScore`: read (default-on-absent), return any read error,
else add the delta, clamp to `[0,100]` (`if > 100` then `100`, `else if < 0`
then `0`), and `PutState` the record under the participant's key.  The Go
code discards the `json.Marshal` error; `Marshal` cannot fail here, so the
encoding step is total. -/
def UpdateReputationScore (L : Ledger) (participantAddress : String) (delta : ℚ) :
    Option ErrKind × Ledger :=
  let r := ReadReputationScore L participantAddress
  if r.1.2.isSome then (r.1.2, r.2)
  else
    let s1 := r.1.1.score + delta
    let s2 := if s1 > 100 then (100 : ℚ) else if s1 < 0 then (0 : ℚ) else s1
    putState r.2 participantAddress (.repV { r.1.1 with score := s2 })

/-- `CreateEnergyAsset`: buyer penalty check (`penalty || err` fails with the
buyer reputation error), then seller penalty check, then existence check
(`exists || err` fails with the already-exists error), then build the record
with `TransactionState = "CREATED"` and signatures left at their zero value,
and `PutState` it under `tokenID`. -/
def CreateEnergyAsset (L : Ledger) (tokenID buyerAddress sellerAddress : String)
    (energyAmount transactionPrice : ℚ) (timestamp : String)
    (buyerDeposit sellerDeposit : ℚ) : Option ErrKind × Ledger :=
  let c1 := CheckReputationPenalty L buyerAddress
  if c1.1.1 || c1.1.2.isSome then (some (.buyerRepTooLow buyerAddress), c1.2)
  else
    let c2 := CheckReputationPenalty c1.2 sellerAddress
    if c2.1.1 || c2.1.2.isSome then (some (.sellerRepTooLow sellerAddress), c2.2)
    else
      let c3 := EnergyAssetExists c2.2 tokenID
      if c3.1.1 || c3.1.2 then (some (.alreadyExists tokenID), c3.2)
      else
        putState c3.2 tokenID (.assetV
          ⟨tokenID, buyerAddress, sellerAddress, energyAmount, transactionPrice,
           timestamp, buyerDeposit, sellerDeposit, "CREATED", "", ""⟩)

/-! ### Helper lemmas about the stub -/

theorem getState_snd (L : Ledger) (k : String) :
    (getState L k).2 = L.getFail k := by
  unfold getState
  split <;> simp_all

theorem getState_ok (L : Ledger) (k : String) (h : L.getFail k = false) :
    getState L k = (L.data k, false) := by
  simp [getState, h]

theorem getState_bad (L : Ledger) (k : String) (h : L.getFail k = true) :
    getState L k = (none, true) := by
  simp [getState, h]

theorem readRep_snd (L : Ledger) (a : String) :
    (ReadReputationScore L a).2 = L := by
  rcases hg : getState L a with ⟨_ | v, e⟩
  · simp [ReadReputationScore, hg]
  · cases e <;> simp [ReadReputationScore, hg]

theorem checkPenalty_snd (L : Ledger) (a : String) :
    (CheckReputationPenalty L a).2 = L :=
  readRep_snd L a

theorem assetExists_snd (L : Ledger) (t : String) :
    (EnergyAssetExists L t).2 = L := rfl

theorem readRep_of_stored (L : Ledger) (a : String) (r : Reputation)
    (hget : L.getFail a = false) (hdata : L.data a = some (.repV r)) :
    ReadReputationScore L a = ((r, none), L) := by
  simp [ReadReputationScore, getState_ok L a hget, hdata, unmarshalRep]

theorem readRep_of_absent (L : Ledger) (a : String) (h : L.data a = none) :
    ReadReputationScore L a = ((⟨a, 50⟩, none), L) := by
  rcases hb : L.getFail a with _ | _
  · simp [ReadReputationScore, getState_ok L a hb, h]
  · simp [ReadReputationScore, getState_bad L a hb]

theorem checkPenalty_of_stored (L : Ledger) (a : String) (r : Reputation)
    (hget : L.getFail a = false) (hdata : L.data a = some (.repV r)) :
    CheckReputationPenalty L a
      = ((decide (r.score < ReputationPenaltyThreshold), none), L) := by
  simp [CheckReputationPenalty, readRep_of_stored L a r hget hdata]

/-! ### Claim C1 -/

/-- C1: CreateEnergyAsset checks the buyer first and short-circuits: whenever
the buyer's stored reputation score is below the threshold (and the buyer's
key reads normally), Create fails with the buyer ReputationTooLow error and
leaves the ledger unchanged, for every seller and every tokenID — in
particular regardless of the seller's score and of whether a record already
sits under tokenID. -/
theorem create_rejects_low_reputation_buyer
    (L : Ledger) (tokenID buyerAddress sellerAddress : String)
    (energyAmount transactionPrice : ℚ) (timestamp : String)
    (buyerDeposit sellerDeposit : ℚ) (r : Reputation)
    (hget : L.getFail buyerAddress = false)
    (hdata : L.data buyerAddress = some (.repV r))
    (hlow : r.score < ReputationPenaltyThreshold) :
    CreateEnergyAsset L tokenID buyerAddress sellerAddress energyAmount
      transactionPrice timestamp buyerDeposit sellerDeposit
      = (some (.buyerRepTooLow buyerAddress), L) := by
  simp [CreateEnergyAsset, checkPenalty_of_stored L buyerAddress r hget hdata, hlow]

/-- Ledger in which the buyer has score 39.9, the seller also has a low
score, and the tokenID already holds a record. -/
def LW1 : Ledger :=
  ⟨fun k =>
    if k = "buyer1" then some (.repV ⟨"buyer1", 399/10⟩)
    else if k = "seller1" then some (.repV ⟨"seller1", 10⟩)
    else if k = "energy1" then some (.assetV
      ⟨"energy1", "buyer1", "seller1", 100, 1/4, "2025-05-03T10:00:00Z",
       10, 10, "CREATED", "", ""⟩)
    else none,
   fun _ => false, fun _ => false⟩

theorem create_rejects_low_reputation_buyer_witness :
    CreateEnergyAsset LW1 "energy1" "buyer1" "seller1" 100 (1/4)
      "2025-05-03T10:00:00Z" 10 10
      = (some (.buyerRepTooLow "buyer1"), LW1) :=
  create_rejects_low_reputation_buyer LW1 "energy1" "buyer1" "seller1" 100 (1/4)
    "2025-05-03T10:00:00Z" 10 10 ⟨"buyer1", 399/10⟩ rfl (by simp [LW1])
    (by norm_num [ReputationPenaltyThreshold])

/-! ### Claim C3 -/

/-- C3: when both buyer and seller have stored reputation scores at or above
the threshold and the tokenID key already holds a record (all keys reading
normally), CreateEnergyAsset fails with the AlreadyExists error and does not
overwrite the existing record: the ledger is returned unchanged. -/
theorem create_fails_already_exists
    (L : Ledger) (tokenID buyerAddress sellerAddress : String)
    (energyAmount transactionPrice : ℚ) (timestamp : String)
    (buyerDeposit sellerDeposit : ℚ) (rb rs : Reputation) (v : StoreVal)
    (hgb : L.getFail buyerAddress = false)
    (hdb : L.data buyerAddress = some (.repV rb))
    (hb : ReputationPenaltyThreshold ≤ rb.score)
    (hgs : L.getFail sellerAddress = false)
    (hds : L.data sellerAddress = some (.repV rs))
    (hs : ReputationPenaltyThreshold ≤ rs.score)
    (hgt : L.getFail tokenID = false)
    (hdt : L.data tokenID = some v) :
    CreateEnergyAsset L tokenID buyerAddress sellerAddress energyAmount
      transactionPrice timestamp buyerDeposit sellerDeposit
      = (some (.alreadyExists tokenID), L) := by
  simp [CreateEnergyAsset, checkPenalty_of_stored L buyerAddress rb hgb hdb,
    checkPenalty_of_stored L sellerAddress rs hgs hds, not_lt.mpr hb, not_lt.mpr hs,
    EnergyAssetExists, getState_ok L tokenID hgt, hdt]

/-- Ledger in which buyer and seller both pass the reputation check and the
tokenID "energy1" already holds a record. -/
def LW3 : Ledger :=
  ⟨fun k =>
    if k = "buyer1" then some (.repV ⟨"buyer1", 80⟩)
    else if k = "seller1" then some (.repV ⟨"seller1", 40⟩)
    else if k = "energy1" then some (.assetV
      ⟨"energy1", "buyer1", "seller1", 100, 1/4, "2025-05-03T10:00:00Z",
       10, 10, "CREATED", "", ""⟩)
    else none,
   fun _ => false, fun _ => false⟩

theorem create_fails_already_exists_witness :
    CreateEnergyAsset LW3 "energy1" "buyer1" "seller1" 5 2 "t" 1 1
      = (some (.alreadyExists "energy1"), LW3) :=
  create_fails_already_exists LW3 "energy1" "buyer1" "seller1" 5 2 "t" 1 1
    ⟨"buyer1", 80⟩ ⟨"seller1", 40⟩
    (.assetV ⟨"energy1", "buyer1", "seller1", 100, 1/4, "2025-05-03T10:00:00Z",
       10, 10, "CREATED", "", ""⟩)
    rfl (by simp [LW3]) (by norm_num [ReputationPenaltyThreshold])
    rfl (by simp [LW3]) (by norm_num [ReputationPenaltyThreshold])
    rfl (by simp [LW3])

/-! ### Claim C4 -/

/-- C4: for every participant address with no record stored under its key,
ReadReputationScore succeeds (no error) and returns the synthesized default
record with score 50; absence never produces an error, whatever the I/O
flags. -/
theorem read_reputation_default_on_absent (L : Ledger) (addr : String)
    (h : L.data addr = none) :
    ReadReputationScore L addr = ((⟨addr, 50⟩, none), L) :=
  readRep_of_absent L addr h

/-- An entirely empty ledger with no I/O failures. -/
def LEmpty : Ledger := ⟨fun _ => none, fun _ => false, fun _ => false⟩

theorem read_reputation_default_on_absent_witness :
    ReadReputationScore LEmpty "never-written" = ((⟨"never-written", 50⟩, none), LEmpty) :=
  read_reputation_default_on_absent LEmpty "never-written" rfl

/-! ### Claim C7 -/

/-- C7: CheckReputationPenalty returns true exactly when the participant's
effective score — the stored one, or the default 50 when the key is absent —
is strictly below the threshold 40, it reports no error, and it returns the
ledger unchanged (no write).  A participant with score exactly 40 is not
penalized, as `decide (40 < 40) = false`. -/
theorem check_penalty_iff_below_threshold (L : Ledger) (addr : String) (sc : ℚ)
    (hget : L.getFail addr = false)
    (hdata : (L.data addr = none ∧ sc = 50) ∨
      ∃ p, L.data addr = some (.repV ⟨p, sc⟩)) :
    CheckReputationPenalty L addr
      = ((decide (sc < ReputationPenaltyThreshold), none), L) := by
  rcases hdata with ⟨hnone, h50⟩ | ⟨p, hp⟩
  · subst h50
    simp [CheckReputationPenalty, readRep_of_absent L addr hnone]
  · simp [checkPenalty_of_stored L addr ⟨p, sc⟩ hget hp]

/-- Ledger holding a participant whose score is exactly the threshold 40. -/
def LW7 : Ledger :=
  ⟨fun k => if k = "p40" then some (.repV ⟨"p40", 40⟩) else none,
   fun _ => false, fun _ => false⟩

theorem check_penalty_iff_below_threshold_witness :
    CheckReputationPenalty LW7 "p40"
      = ((decide ((40 : ℚ) < ReputationPenaltyThreshold), none), LW7) :=
  check_penalty_iff_below_threshold LW7 "p40" 40 rfl (Or.inr ⟨"p40", by simp [LW7]⟩)

/-! ### Claim C9 (corrected) -/

/-- Ledger whose key "p1" holds a reputation record with score 30 but whose
store get fails with a host I/O error on that key. -/
def L9 : Ledger :=
  ⟨fun k => if k = "p1" then some (.repV ⟨"p1", 30⟩) else none,
   fun k => k == "p1", fun _ => false⟩

/-- C9 counterexample: with a host I/O failure on the participant's key (and
a score of 30 actually stored there), ReadReputationScore does NOT fail with
a StoreError — it succeeds with no error and silently substitutes the
default score 50, exactly as in the absent case.  This refutes the claim
that a failed read is surfaced to the caller. -/
theorem read_reputation_store_error_counterexample :
    L9.getFail "p1" = true ∧
    L9.data "p1" = some (.repV ⟨"p1", 30⟩) ∧
    (ReadReputationScore L9 "p1").1 = (⟨"p1", 50⟩, none) := by
  refine ⟨rfl, by simp [L9], ?_⟩
  simp [ReadReputationScore, getState_bad L9 "p1" rfl]

/-- C9 amended: when the store get fails with a host I/O failure during a
reputation lookup, ReadReputationScore succeeds with no error and returns
the synthesized default record with score 50 — the failed read is folded
into the absent-means-default path, not surfaced as a StoreError. -/
theorem read_reputation_default_on_store_error (L : Ledger) (addr : String)
    (h : L.getFail addr = true) :
    ReadReputationScore L addr = ((⟨addr, 50⟩, none), L) := by
  simp [ReadReputationScore, getState_bad L addr h]

theorem read_reputation_default_on_store_error_witness :
    ReadReputationScore L9 "p1" = ((⟨"p1", 50⟩, none), L9) :=
  read_reputation_default_on_store_error L9 "p1" rfl

/-! ### Claim C8 (corrected) -/

/-- Ledger whose key "t1" holds an asset record but whose store get fails
with a host I/O error on that key; key "bad" holds unparseable bytes. -/
def L8 : Ledger :=
  ⟨fun k =>
    if k = "t1" then some (.assetV
      ⟨"t1", "b", "s", 1, 1, "ts", 0, 0, "CREATED", "", ""⟩)
    else if k = "bad" then some .badBytes
    else none,
   fun k => k == "t1", fun _ => false⟩

/-- C8 counterexample: a record IS stored under "t1", yet because the store
get fails with a host I/O error there, ReadEnergyAsset reports the NotFound
error ("asset t1 does not exist").  This refutes both "fails with NotFound
exactly when no record is stored" and "a store I/O failure is not reported
as NotFound". -/
theorem read_asset_notfound_counterexample :
    (L8.data "t1").isSome = true ∧
    (ReadEnergyAsset L8 "t1").1 = (none, some (.notFound "t1")) := by
  refine ⟨by simp [L8], ?_⟩
  simp [ReadEnergyAsset, getState_bad L8 "t1" rfl]

/-- C8 amended: ReadEnergyAsset fails with the NotFound error whenever the
key is absent OR the store get fails (a host I/O failure is folded into the
same "does not exist" error); it fails with the distinct DecodeError when
the key reads normally but the stored bytes cannot be parsed as a record.
The absent-means-default policy indeed never applies to asset lookups. -/
theorem read_asset_error_cases (L : Ledger) (t : String) :
    (L.getFail t = true ∨ L.data t = none →
      ReadEnergyAsset L t = ((none, some (.notFound t)), L)) ∧
    (L.getFail t = false → L.data t = some .badBytes →
      ReadEnergyAsset L t = ((some zeroAsset, some .decodeError), L)) := by
  constructor
  · rintro (h | h)
    · simp [ReadEnergyAsset, getState_bad L t h]
    · rcases hb : L.getFail t with _ | _
      · simp [ReadEnergyAsset, getState_ok L t hb, h]
      · simp [ReadEnergyAsset, getState_bad L t hb]
  · intro hg hd
    simp [ReadEnergyAsset, getState_ok L t hg, hd, unmarshalAsset]

theorem read_asset_error_cases_witness :
    ReadEnergyAsset L8 "missing" = ((none, some (.notFound "missing")), L8) :=
  (read_asset_error_cases L8 "missing").1 (Or.inr (by simp [L8]))

/-! ### Claim C10 -/

/-- C10: when the existence check's store get itself fails with a host I/O
error (both participants passing the reputation gate), CreateEnergyAsset
folds the failure into the rule-violation error: it fails with the
AlreadyExists ("asset ... already exists") error even though no record is
stored at the tokenID key. -/
theorem create_already_exists_on_store_error
    (L : Ledger) (tokenID buyerAddress sellerAddress : String)
    (energyAmount transactionPrice : ℚ) (timestamp : String)
    (buyerDeposit sellerDeposit : ℚ) (rb rs : Reputation)
    (hgb : L.getFail buyerAddress = false)
    (hdb : L.data buyerAddress = some (.repV rb))
    (hb : ReputationPenaltyThreshold ≤ rb.score)
    (hgs : L.getFail sellerAddress = false)
    (hds : L.data sellerAddress = some (.repV rs))
    (hs : ReputationPenaltyThreshold ≤ rs.score)
    (hgt : L.getFail tokenID = true)
    (hdt : L.data tokenID = none) :
    CreateEnergyAsset L tokenID buyerAddress sellerAddress energyAmount
      transactionPrice timestamp buyerDeposit sellerDeposit
      = (some (.alreadyExists tokenID), L) := by
  simp [CreateEnergyAsset, checkPenalty_of_stored L buyerAddress rb hgb hdb,
    checkPenalty_of_stored L sellerAddress rs hgs hds, not_lt.mpr hb, not_lt.mpr hs,
    EnergyAssetExists, getState_bad L tokenID hgt]

/-- Ledger where both participants pass the reputation gate, nothing is
stored under "t1", but the store get fails on "t1". -/
def LW10 : Ledger :=
  ⟨fun k =>
    if k = "buyer1" then some (.repV ⟨"buyer1", 80⟩)
    else if k = "seller1" then some (.repV ⟨"seller1", 85⟩)
    else none,
   fun k => k == "t1", fun _ => false⟩

theorem create_already_exists_on_store_error_witness :
    CreateEnergyAsset LW10 "t1" "buyer1" "seller1" 5 2 "t" 1 1
      = (some (.alreadyExists "t1"), LW10) :=
  create_already_exists_on_store_error LW10 "t1" "buyer1" "seller1" 5 2 "t" 1 1
    ⟨"buyer1", 80⟩ ⟨"seller1", 85⟩
    (by simp [LW10]) (by simp [LW10]) (by norm_num [ReputationPenaltyThreshold])
    (by simp [LW10]) (by simp [LW10]) (by norm_num [ReputationPenaltyThreshold])
    (by simp [LW10]) (by simp [LW10])

/-! ### Claim C2 -/

/-- The clamped value `if x > 100 then 100 else if x < 0 then 0 else x`
always lies in the closed interval `[0, 100]`. -/
theorem clamp_mem (x : ℚ) :
    0 ≤ (if x > 100 then (100 : ℚ) else if x < 0 then (0 : ℚ) else x) ∧
    (if x > 100 then (100 : ℚ) else if x < 0 then (0 : ℚ) else x) ≤ 100 := by
  split_ifs with h1 h2 <;> constructor <;> linarith

theorem putState_data_self (L : Ledger) (k : String) (v : StoreVal)
    (h : L.putFail k = false) :
    (putState L k v).2.data k = some v := by
  simp [putState, h]

/-- C2: for every participant, starting ledger and delta (positive or
negative, however large), whenever UpdateReputationScore succeeds, the record
persisted under the participant's key is a reputation record whose score lies
in the closed interval [0, 100]. -/
theorem update_reputation_score_clamped (L : Ledger) (addr : String) (d : ℚ)
    (hsucc : (UpdateReputationScore L addr d).1 = none) :
    ∃ r : Reputation, (UpdateReputationScore L addr d).2.data addr = some (.repV r)
      ∧ 0 ≤ r.score ∧ r.score ≤ 100 := by
  rcases he : (ReadReputationScore L addr).1.2 with _ | e
  · rcases hp : L.putFail addr with _ | _
    · refine ⟨{ (ReadReputationScore L addr).1.1 with
          score := if (ReadReputationScore L addr).1.1.score + d > 100 then (100 : ℚ)
            else if (ReadReputationScore L addr).1.1.score + d < 0 then (0 : ℚ)
            else (ReadReputationScore L addr).1.1.score + d }, ?_, ?_, ?_⟩
      · simp only [UpdateReputationScore, he, Option.isSome_none, Bool.false_eq_true,
          if_false, readRep_snd]
        exact putState_data_self L addr _ hp
      · exact (clamp_mem _).1
      · exact (clamp_mem _).2
    · exfalso
      simp only [UpdateReputationScore, he, Option.isSome_none, Bool.false_eq_true,
        if_false, readRep_snd, putState, hp, if_true] at hsucc
      exact Option.some_ne_none _ hsucc
  · exfalso
    simp only [UpdateReputationScore, he, Option.isSome_some, if_true] at hsucc
    exact Option.some_ne_none _ hsucc

theorem update_reputation_score_clamped_witness :
    ∃ r : Reputation, (UpdateReputationScore LEmpty "p1" 1000).2.data "p1" = some (.repV r)
      ∧ 0 ≤ r.score ∧ r.score ≤ 100 :=
  update_reputation_score_clamped LEmpty "p1" 1000
    (by norm_num [UpdateReputationScore, ReadReputationScore, getState, LEmpty, putState])

/-! ### Claims C5 and C6 -/

/-- When both participants hold passing stored scores, nothing is stored
under the tokenID, and the tokenID key has no I/O failure, CreateEnergyAsset
succeeds (returns no error). -/
theorem create_succeeds (L : Ledger) (tokenID buyerAddress sellerAddress : String)
    (energyAmount transactionPrice : ℚ) (timestamp : String)
    (buyerDeposit sellerDeposit : ℚ) (rb rs : Reputation)
    (hgb : L.getFail buyerAddress = false)
    (hdb : L.data buyerAddress = some (.repV rb))
    (hb : ReputationPenaltyThreshold ≤ rb.score)
    (hgs : L.getFail sellerAddress = false)
    (hds : L.data sellerAddress = some (.repV rs))
    (hs : ReputationPenaltyThreshold ≤ rs.score)
    (hgt : L.getFail tokenID = false)
    (hdt : L.data tokenID = none)
    (hpt : L.putFail tokenID = false) :
    (CreateEnergyAsset L tokenID buyerAddress sellerAddress energyAmount
      transactionPrice timestamp buyerDeposit sellerDeposit).1 = none := by
  simp [CreateEnergyAsset, checkPenalty_of_stored L buyerAddress rb hgb hdb,
    checkPenalty_of_stored L sellerAddress rs hgs hds, not_lt.mpr hb, not_lt.mpr hs,
    EnergyAssetExists, getState_ok L tokenID hgt, hdt, putState, hpt]

/-- On a successful create, the tokenID key read without I/O error, the put
succeeded, and the resulting ledger is the input ledger with exactly the
tokenID key rebound to the freshly built record. -/
theorem create_success_ledger (L : Ledger) (tokenID buyerAddress sellerAddress : String)
    (energyAmount transactionPrice : ℚ) (timestamp : String)
    (buyerDeposit sellerDeposit : ℚ)
    (hsucc : (CreateEnergyAsset L tokenID buyerAddress sellerAddress energyAmount
        transactionPrice timestamp buyerDeposit sellerDeposit).1 = none) :
    L.getFail tokenID = false ∧ L.putFail tokenID = false ∧
    (CreateEnergyAsset L tokenID buyerAddress sellerAddress energyAmount
        transactionPrice timestamp buyerDeposit sellerDeposit).2
      = { L with data := fun k =>
          if k = tokenID then some (.assetV
            ⟨tokenID, buyerAddress, sellerAddress, energyAmount, transactionPrice,
             timestamp, buyerDeposit, sellerDeposit, "CREATED", "", ""⟩)
          else L.data k } := by
  simp only [CreateEnergyAsset, checkPenalty_snd, assetExists_snd] at hsucc ⊢
  split_ifs at hsucc ⊢ with h1 h2 h3
  simp only [EnergyAssetExists, getState_snd, Bool.or_eq_true, not_or,
    Bool.not_eq_true] at h3
  have hput : L.putFail tokenID = false := by
    by_contra hc
    rw [Bool.not_eq_false] at hc
    simp [putState, hc] at hsucc
  exact ⟨h3.2, hput, by simp [putState, hput]⟩

/-- C5: CreateEnergyAsset is atomic — on a failing execution (buyer or
seller rejection, already-exists, or store failure) it returns the ledger
unchanged, performing no write; on a successful execution its only effect is
the single put of the new record under tokenID, every other key and every
I/O flag being untouched. -/
theorem create_atomic (L : Ledger) (tokenID buyerAddress sellerAddress : String)
    (energyAmount transactionPrice : ℚ) (timestamp : String)
    (buyerDeposit sellerDeposit : ℚ) :
    ((CreateEnergyAsset L tokenID buyerAddress sellerAddress energyAmount
        transactionPrice timestamp buyerDeposit sellerDeposit).1 ≠ none →
      (CreateEnergyAsset L tokenID buyerAddress sellerAddress energyAmount
        transactionPrice timestamp buyerDeposit sellerDeposit).2 = L) ∧
    ((CreateEnergyAsset L tokenID buyerAddress sellerAddress energyAmount
        transactionPrice timestamp buyerDeposit sellerDeposit).1 = none →
      (CreateEnergyAsset L tokenID buyerAddress sellerAddress energyAmount
        transactionPrice timestamp buyerDeposit sellerDeposit).2
        = { L with data := fun k =>
            if k = tokenID then some (.assetV
              ⟨tokenID, buyerAddress, sellerAddress, energyAmount, transactionPrice,
               timestamp, buyerDeposit, sellerDeposit, "CREATED", "", ""⟩)
            else L.data k }) := by
  constructor
  · intro hfail
    simp only [CreateEnergyAsset, checkPenalty_snd, assetExists_snd, putState] at hfail ⊢
    split_ifs at hfail ⊢ with h1 h2 h3 h4
    all_goals first
      | rfl
      | exact absurd rfl hfail
  · intro hsucc
    exact (create_success_ledger L tokenID buyerAddress sellerAddress energyAmount
      transactionPrice timestamp buyerDeposit sellerDeposit hsucc).2.2

/-- Ledger matching the spec scenario: buyer score 80, seller score 85,
tokenID "energy2" unused, no I/O failures. -/
def LW5 : Ledger :=
  ⟨fun k =>
    if k = "buyer1" then some (.repV ⟨"buyer1", 80⟩)
    else if k = "seller1" then some (.repV ⟨"seller1", 85⟩)
    else none,
   fun _ => false, fun _ => false⟩

theorem create_atomic_witness :
    (CreateEnergyAsset LW5 "energy2" "buyer1" "seller1" 5 2 "t" 1 1).2
      = { LW5 with data := fun k =>
          if k = "energy2" then some (.assetV
            ⟨"energy2", "buyer1", "seller1", 5, 2, "t", 1, 1, "CREATED", "", ""⟩)
          else LW5.data k } :=
  (create_atomic LW5 "energy2" "buyer1" "seller1" 5 2 "t" 1 1).2
    (create_succeeds LW5 "energy2" "buyer1" "seller1" 5 2 "t" 1 1
      ⟨"buyer1", 80⟩ ⟨"seller1", 85⟩
      (by simp [LW5]) (by simp [LW5]) (by norm_num [ReputationPenaltyThreshold])
      (by simp [LW5]) (by simp [LW5]) (by norm_num [ReputationPenaltyThreshold])
      (by simp [LW5]) (by simp [LW5]) (by simp [LW5]))

/-- C6: round-trip — whenever CreateEnergyAsset succeeds, reading the same
tokenID from the resulting ledger succeeds with no error and returns the
record whose fields equal the Create arguments, whose transactionState is
"CREATED", and whose signature fields are empty. -/
theorem create_read_round_trip (L : Ledger) (tokenID buyerAddress sellerAddress : String)
    (energyAmount transactionPrice : ℚ) (timestamp : String)
    (buyerDeposit sellerDeposit : ℚ)
    (hsucc : (CreateEnergyAsset L tokenID buyerAddress sellerAddress energyAmount
        transactionPrice timestamp buyerDeposit sellerDeposit).1 = none) :
    ReadEnergyAsset (CreateEnergyAsset L tokenID buyerAddress sellerAddress
        energyAmount transactionPrice timestamp buyerDeposit sellerDeposit).2 tokenID
      = ((some ⟨tokenID, buyerAddress, sellerAddress, energyAmount, transactionPrice,
            timestamp, buyerDeposit, sellerDeposit, "CREATED", "", ""⟩, none),
         (CreateEnergyAsset L tokenID buyerAddress sellerAddress energyAmount
            transactionPrice timestamp buyerDeposit sellerDeposit).2) := by
  obtain ⟨hg, hp, hL⟩ := create_success_ledger L tokenID buyerAddress sellerAddress
    energyAmount transactionPrice timestamp buyerDeposit sellerDeposit hsucc
  have hgf : (CreateEnergyAsset L tokenID buyerAddress sellerAddress energyAmount
      transactionPrice timestamp buyerDeposit sellerDeposit).2.getFail tokenID = false := by
    rw [hL]
    exact hg
  have hdt2 : (CreateEnergyAsset L tokenID buyerAddress sellerAddress energyAmount
      transactionPrice timestamp buyerDeposit sellerDeposit).2.data tokenID
      = some (.assetV ⟨tokenID, buyerAddress, sellerAddress, energyAmount,
          transactionPrice, timestamp, buyerDeposit, sellerDeposit, "CREATED", "", ""⟩) := by
    rw [hL]
    simp
  simp [ReadEnergyAsset, getState_ok _ tokenID hgf, hdt2, unmarshalAsset]

theorem create_read_round_trip_witness :
    ReadEnergyAsset (CreateEnergyAsset LW5 "energy2" "buyer1" "seller1" 5 2 "t" 1 1).2
        "energy2"
      = ((some ⟨"energy2", "buyer1", "seller1", 5, 2, "t", 1, 1, "CREATED", "", ""⟩, none),
         (CreateEnergyAsset LW5 "energy2" "buyer1" "seller1" 5 2 "t" 1 1).2) :=
  create_read_round_trip LW5 "energy2" "buyer1" "seller1" 5 2 "t" 1 1
    (create_succeeds LW5 "energy2" "buyer1" "seller1" 5 2 "t" 1 1
      ⟨"buyer1", 80⟩ ⟨"seller1", 85⟩
      (by simp [LW5]) (by simp [LW5]) (by norm_num [ReputationPenaltyThreshold])
      (by simp [LW5]) (by simp [LW5]) (by norm_num [ReputationPenaltyThreshold])
      (by simp [LW5]) (by simp [LW5]) (by simp [LW5]))
